import Mathlib

/-!
Verification of the Golem supervisor core (CreonC/Golem).

This file shallowly embeds the process-supervisor parts of the repository:
the `startServer` / `stopServer` / `restartServer` functions and the console
helper `printWithPrompt` from `process.go` (and the readline console variant
of the same file), the command-dispatch switch of the operator input loop,
the stdout/stderr relay goroutines, and the plugin watcher loop from
`watcher.go`.  Effectful Go code is modelled by explicit state passing: the
package-level globals `serverProcess` and `serverStdin` become a `SupState`
record, and the outcomes of the OS interactions a function performs (pipe
creation, process spawn, write to the child's stdin, whether the child exits
within the grace period, whether the forced kill errors) are supplied as an
explicit environment record, so each Go function becomes a total Lean
function from state and environment to result, new state and an observable
trace.
-/

namespace Golem

/-- OS process id, as stored in the global `serverProcess` (`*os.Process`). -/
abbrev Pid := Nat

/-- Identity of one write-end pipe handle, as stored in the global
`serverStdin` (`io.WriteCloser`). -/
abbrev PipeId := Nat

/-- The two package-level supervisor globals of `process.go`:
`var serverProcess *os.Process` and `var serverStdin io.WriteCloser`.
`none` models a nil pointer / nil interface. -/
structure SupState where
  serverProcess : Option Pid
  serverStdin : Option PipeId
deriving Repr, DecidableEq

/-! ## stopServer

Embeds `stopServer` from `process.go` (identical in every variant of the
file, `src/process.go` lines 197-232 and `src/unnamed/part_003` lines
319-354):

- `serverProcess == nil` returns nil immediately;
- otherwise, if `serverStdin != nil`, write the directive `stop\n`; a write
  error is returned at once, before any waiting or killing;
- otherwise wait on a `done` channel against `time.After(30 * time.Second)`;
  if the process exits within the grace period the globals are nilled and
  the error from `Wait` is returned;
- on timeout, call `serverProcess.Kill()` exactly once; if the kill errors,
  return that error with the globals untouched; otherwise nil the globals
  and return the "did not stop gracefully" error.
-/

/-- Outcomes of the OS interactions `stopServer` may perform. -/
structure StopEnv where
  /-- The write of the directive `stop\n` to the child's stdin errors. -/
  writeStopFails : Bool
  /-- The child exits before the 30-second grace period elapses. -/
  exitsWithinGrace : Bool
  /-- The error returned by `Process.Wait` on the graceful path is non-nil. -/
  waitFails : Bool
  /-- The forced `Process.Kill` errors. -/
  killFails : Bool
deriving Repr, DecidableEq

/-- The value `stopServer` returns (`nil` or one of its error strings). -/
inductive StopResult
  /-- nil error. -/
  | ok
  /-- The error string "failed to send stop command: ...". -/
  | sendStopFailed
  /-- A non-nil error propagated from `Process.Wait` on the graceful path. -/
  | waitFailed
  /-- The error string "failed to force kill server: ...". -/
  | killFailed
  /-- The error string "server did not stop gracefully within timeout". -/
  | ungraceful
deriving Repr, DecidableEq

/-- Result of one call to `stopServer`: the returned error, the final values
of the supervisor globals, how many forced terminations were issued, and
whether the 30-second grace period was waited out. -/
structure StopTrace where
  result : StopResult
  state : SupState
  kills : Nat
  graceWaited : Bool
deriving Repr, DecidableEq

/-- Shallow embedding of `stopServer` (`process.go`). -/
def stopServer (st : SupState) (env : StopEnv) : StopTrace :=
  match st.serverProcess with
  | none => ⟨.ok, st, 0, false⟩
  | some _ =>
    if st.serverStdin.isSome && env.writeStopFails then
      ⟨.sendStopFailed, st, 0, false⟩
    else if env.exitsWithinGrace then
      ⟨if env.waitFails then .waitFailed else .ok, ⟨none, none⟩, 0, false⟩
    else if env.killFails then
      ⟨.killFailed, st, 1, true⟩
    else
      ⟨.ungraceful, ⟨none, none⟩, 1, true⟩

/-! ## startServer

Embeds `startServer` from `src/process.go` lines 38-94.  The function body
is a straight line of fallible steps; the global `serverStdin` is assigned
the result of `cmd.StdinPipe()` directly (`serverStdin, err = ...`), so it
is overwritten before the EULA write and the spawn are attempted, while the
global `serverProcess` is only assigned after `cmd.Start()` succeeds. -/

/-- Outcomes of the OS interactions `startServer` may perform, plus the
concrete handles the OS would hand back on success. -/
structure StartEnv where
  /-- `server.jar` exists at the configured path. -/
  jarExists : Bool
  /-- `cmd.StdoutPipe()` succeeds. -/
  stdoutPipeOk : Bool
  /-- `cmd.StderrPipe()` succeeds. -/
  stderrPipeOk : Bool
  /-- `cmd.StdinPipe()` succeeds. -/
  stdinPipeOk : Bool
  /-- The pipe handle `cmd.StdinPipe()` returns on success. -/
  newPipe : PipeId
  /-- `acceptEULA()` (the `eula.txt` write) succeeds. -/
  eulaOk : Bool
  /-- `cmd.Start()` succeeds. -/
  spawnOk : Bool
  /-- The pid of the spawned child on success. -/
  newPid : Pid
deriving Repr, DecidableEq

/-- The value `startServer` returns. -/
inductive StartResult
  | ok
  /-- "server is already running". -/
  | alreadyRunning
  /-- "server jar not found at ...". -/
  | jarNotFound
  /-- "failed to create stdout pipe: ...". -/
  | stdoutPipeFailed
  /-- "failed to create stderr pipe: ...". -/
  | stderrPipeFailed
  /-- "failed to create stdin pipe: ...". -/
  | stdinPipeFailed
  /-- "failed to accept EULA: ...". -/
  | eulaFailed
  /-- "failed to start server: ...". -/
  | spawnFailed
deriving Repr, DecidableEq

/-- Shallow embedding of `startServer` (`src/process.go`).  On a
`cmd.StdinPipe()` error Go assigns the returned nil writer to the global, so
that branch sets `serverStdin := none`; after a successful `StdinPipe` the
global already holds the new pipe on the EULA-failure and spawn-failure
returns. -/
def startServer (st : SupState) (env : StartEnv) : StartResult × SupState :=
  match st.serverProcess with
  | some _ => (.alreadyRunning, st)
  | none =>
    if !env.jarExists then (.jarNotFound, st)
    else if !env.stdoutPipeOk then (.stdoutPipeFailed, st)
    else if !env.stderrPipeOk then (.stderrPipeFailed, st)
    else if !env.stdinPipeOk then (.stdinPipeFailed, { st with serverStdin := none })
    else if !env.eulaOk then (.eulaFailed, { st with serverStdin := some env.newPipe })
    else if !env.spawnOk then (.spawnFailed, { st with serverStdin := some env.newPipe })
    else (.ok, ⟨some env.newPid, some env.newPipe⟩)

/-! ## restartServer

Embeds `restartServer` from `src/process.go` lines 234-247:

```go
func restartServer() error {
    if err := stopServer(); err != nil {
        return fmt.Errorf("failed to stop server: %v", err)
    }
    time.Sleep(5 * time.Second)
    if err := startServer(); err != nil {
        return fmt.Errorf("failed to restart server: %v", err)
    }
    return nil
}
```

Any non-nil error from `stopServer` — the graceful-timeout error
("server did not stop gracefully within timeout") just as much as the
kill-failure error — makes `restartServer` return immediately without
calling `startServer`.  (The readline variant of the file,
`src/unnamed/part_003` lines 356-384, diverges the other way: it logs any
`stopServer` error as a warning and always proceeds to `startServer`; it is
embedded below as `restartServerRL`.)  The 5-second settle sleep has no
observable effect on the modelled state and is not represented. -/

/-- The value `restartServer` returns. -/
inductive RestartResult
  /-- nil error. -/
  | ok
  /-- "failed to stop server: ..." wrapping the `stopServer` error. -/
  | stopFailed (e : StopResult)
  /-- "failed to restart server: ..." wrapping the `startServer` error. -/
  | startFailed (e : StartResult)
deriving Repr, DecidableEq

/-- Result of one call to `restartServer`: the returned error, the final
supervisor globals, whether `startServer` was invoked at all, and the error
`stopServer` returned in the first phase. -/
structure RestartTrace where
  result : RestartResult
  state : SupState
  startCalled : Bool
  stopRes : StopResult
deriving Repr, DecidableEq

/-- Shallow embedding of `restartServer` (`src/process.go` lines 234-247). -/
def restartServer (st : SupState) (senv : StopEnv) (env : StartEnv) : RestartTrace :=
  let t := stopServer st senv
  match t.result with
  | .ok =>
    match startServer t.state env with
    | (.ok, st2) => ⟨.ok, st2, true, .ok⟩
    | (e, st2) => ⟨.startFailed e, st2, true, .ok⟩
  | e => ⟨.stopFailed e, t.state, false, e⟩

/-- Shallow embedding of the readline variant of `restartServer`
(`src/unnamed/part_003` lines 356-384): when a process exists it calls
`stopServer`, logs any error as a warning (checking only whether the error
text contains "no child processes", which changes nothing observable), then
forcibly nils both globals, sleeps, and always proceeds to `startServer`. -/
def restartServerRL (st : SupState) (senv : StopEnv) (env : StartEnv) : RestartTrace :=
  match st.serverProcess with
  | some _ =>
    let t := stopServer st senv
    match startServer ⟨none, none⟩ env with
    | (.ok, st2) => ⟨.ok, st2, true, t.result⟩
    | (e, st2) => ⟨.startFailed e, st2, true, t.result⟩
  | none =>
    match startServer st env with
    | (.ok, st2) => ⟨.ok, st2, true, .ok⟩
    | (e, st2) => ⟨.startFailed e, st2, true, .ok⟩

/-! ## CommandRouter

Embeds the command-dispatch switch of the operator input loop in the
readline console variant (`src/unnamed/part_003` lines 274-308; this is the
variant with the `NotRunning` guard).  The switch matches the typed line
against the four Golem directives by exact, case-sensitive string equality;
in the default branch it first checks `serverProcess == nil || serverStdin
== nil`, printing "Server is not running. Use !restart to start it again."
and dropping the line if so, and otherwise writes `line + "\n"` to the
child's stdin. -/

/-- What the input loop does with one operator line. -/
inductive RouteAction
  /-- The `!help` branch: print the command summary. -/
  | helpText
  /-- The `!exit` branch: `stopServer()` then `os.Exit(0)`. -/
  | exitGolem
  /-- The `!stop` branch: `stopServer()` only. -/
  | stopOnly
  /-- The `!restart` branch: `restartServer()`. -/
  | restartCmd
  /-- The exact bytes written to the child's stdin. -/
  | forward (bytes : String)
  /-- The "Server is not running" report; the line is dropped. -/
  | notRunning
deriving Repr, DecidableEq

/-- The four supervisor directives recognized by the switch. -/
def golemDirectives : List String := ["!help", "!exit", "!stop", "!restart"]

/-- Shallow embedding of the dispatch switch of the operator input loop
(`src/unnamed/part_003` lines 274-308). -/
def routeCommand (line : String) (sp : Option Pid) (si : Option PipeId) : RouteAction :=
  if line = "!help" then .helpText
  else if line = "!exit" then .exitGolem
  else if line = "!stop" then .stopOnly
  else if line = "!restart" then .restartCmd
  else if sp.isNone || si.isNone then .notRunning
  else .forward (line ++ "\n")

/-! ## OutputRelay

Embeds the stdout relay goroutine of `startServer` (`src/process.go` lines
91-100, identically `src/unnamed/part_003` lines 176-196): a
`bufio.Scanner` over the child's stdout with `scanner.Buffer(make([]byte,
4096), 256*1024)`, looping `for scanner.Scan() { printWithPrompt("[Server] "
+ scanner.Text()) }` and, once `Scan` returns false, logging `scanner.Err()`
and returning from the goroutine.  Per the Go standard library, a line
longer than the maximum token size makes `Scan` return false with
`scanner.Err() = bufio.ErrTooLong`: the scanner does not truncate the token
and cannot be used further, so the goroutine exits at the first over-long
line.  The child's output stream is modelled as the list of lines it
writes. -/

/-- The 256 KiB maximum token size passed to `scanner.Buffer`. -/
def maxLineCapacity : Nat := 256 * 1024

/-- Why the relay loop ended: the stream closed, or `Scan` failed with
`bufio.ErrTooLong` on a line exceeding the buffer cap. -/
inductive RelayEnd
  | eof
  | tooLong
deriving Repr, DecidableEq

/-- Shallow embedding of the stdout relay goroutine: the lines it hands to
the console sink (each tagged "[Server] "), and how the loop ended. -/
def relayLines : List String → List String × RelayEnd
  | [] => ([], .eof)
  | l :: rest =>
    if l.length > maxLineCapacity then ([], .tooLong)
    else
      let r := relayLines rest
      (("[Server] " ++ l) :: r.1, r.2)

/-- A concrete child-output line one byte longer than the 256 KiB cap. -/
def overlongLine : String := String.mk (List.replicate (maxLineCapacity + 1) 'x')

/-! ## ConsoleSink

Embeds `printWithPrompt` (`src/process.go` lines 19-36, identically
`src/unnamed/part_003` lines 74-91):

```go
func printWithPrompt(message string) {
    outputMutex.Lock()
    defer outputMutex.Unlock()
    if promptActive {
        fmt.Print("\r")
        fmt.Print("                              \r")
    }
    fmt.Println(message)
    fmt.Print("golem> ")
    promptActive = true
}
```

The call is modelled as the sequence of observable events it performs on
the console, including the acquisition and release of `outputMutex`; the
deferred unlock runs on every path out of the function. -/

/-- One observable console event of `printWithPrompt`. -/
inductive ConsoleEv
  /-- `outputMutex.Lock()`. -/
  | lockEv
  /-- The carriage-return-and-erase sequence (the two `fmt.Print` calls
  emitting a CR, a run of spaces and a CR). -/
  | eraseEv
  /-- `fmt.Println(message)`. -/
  | lineEv (message : String)
  /-- `fmt.Print("golem> ")`, redrawing the prompt. -/
  | promptEv
  /-- The deferred `outputMutex.Unlock()`. -/
  | unlockEv
deriving Repr, DecidableEq

/-- Shallow embedding of `printWithPrompt`: given the entry value of the
`promptActive` global and the message, returns the exit value of
`promptActive` and the event sequence performed. -/
def printWithPrompt (promptActive : Bool) (message : String) : Bool × List ConsoleEv :=
  (true,
    [ConsoleEv.lockEv]
      ++ (if promptActive then [ConsoleEv.eraseEv] else [])
      ++ [ConsoleEv.lineEv message, ConsoleEv.promptEv, ConsoleEv.unlockEv])

/-! ## Concurrency of the supervisor operations

Neither `startServer`, `stopServer` nor `restartServer` acquires any lock:
the only mutexes in the repository are `outputMutex` (guarding console
printing only) and the watcher's `pluginsMutex` (guarding its hash map
only).  The bodies of the supervisor operations read and write the shared
globals `serverProcess` / `serverStdin` directly, so two concurrently
scheduled callers — e.g. the operator input loop running `stopServer` for
`!stop` and the watcher goroutine running `restartServer` (whose first
phase is the same `stopServer` body) — interleave freely.

The interleaving is modelled at the granularity the claim is about: each
thread executes the `stopServer` body as a sequence of atomic steps over
the shared `SupState`, with a program counter recording how far it has
got.  The guard step is the `serverProcess == nil` check; everything after
a passed guard (sending the stop directive, waiting, releasing the handle)
is the operation's critical phase. -/

/-- Program counter of a thread executing the `stopServer` body. -/
inductive StopPC
  /-- About to evaluate the `serverProcess == nil` guard. -/
  | atGuard
  /-- Guard passed; about to write the `stop\n` directive. -/
  | atSend
  /-- Directive written; waiting for the exit signal, after which the
  globals are nilled. -/
  | atWait
  /-- Returned. -/
  | finished
deriving Repr, DecidableEq

/-- A thread is in the critical phase of `stopServer` once it has passed
the `serverProcess == nil` guard and has not yet returned. -/
def inCriticalPhase : StopPC → Bool
  | .atSend => true
  | .atWait => true
  | _ => false

/-- One atomic step of a thread executing the `stopServer` body over the
shared globals (graceful-exit path; no step acquires any lock, because the
source takes none). -/
def stopThreadStep (sh : SupState) (pc : StopPC) : SupState × StopPC :=
  match pc with
  | .atGuard =>
    match sh.serverProcess with
    | none => (sh, .finished)
    | some _ => (sh, .atSend)
  | .atSend => (sh, .atWait)
  | .atWait => (⟨none, none⟩, .finished)
  | .finished => (sh, .finished)

/-- The interleaved system: the shared supervisor globals and the program
counters of two concurrent `stopServer` callers (thread A: the operator's
`!stop`; thread B: the stop phase of a watcher-issued restart). -/
structure ConcSys where
  shared : SupState
  pcA : StopPC
  pcB : StopPC
deriving Repr, DecidableEq

/-- Scheduler step: run one atomic step of thread A (`true`) or thread B
(`false`). -/
def schedStep (s : ConcSys) (runA : Bool) : ConcSys :=
  if runA then
    let r := stopThreadStep s.shared s.pcA
    ⟨r.1, r.2, s.pcB⟩
  else
    let r := stopThreadStep s.shared s.pcB
    ⟨r.1, s.pcA, r.2⟩

/-- Run a schedule (a list of thread choices) from a system state. -/
def schedRun (s : ConcSys) (sched : List Bool) : ConcSys :=
  sched.foldl schedStep s

/-! ## RestartCoordinator: the watcher loop

Embeds the restart coalescing behaviour of `watchPluginDevelopment`
(`src/watcher.go` lines 110-198).  The watcher goroutine is a single loop:
every 2-second ticker fire it rescans the watched directory, compares each
plugin's MD5 hash against the recorded one (`plugin.Hash != hash`), records
the new hash, sets `restartNeeded`, and — still in the same goroutine —
calls `restartServer()` synchronously when `restartNeeded` is set.  Because
the restart runs inside the loop, no scan happens while a restart is in
flight: plugin-content changes made during the restart only move the
on-disk hash, ticker fires during the restart are dropped (a `time.Ticker`
drops fires its receiver is too slow for), and the first tick processed
after the restart completes sees only the final on-disk hash.

The model tracks one watched plugin: `recorded` is the hash stored in the
`plugins` map, `current` the hash of the file on disk, `restarting` whether
the loop is currently inside `restartServer()`, and `restarts` how many
restarts have been executed. -/

/-- State of the watcher loop for one tracked plugin. -/
structure WatchState where
  recorded : Nat
  current : Nat
  restarting : Bool
  restarts : Nat
deriving Repr, DecidableEq

/-- Events acting on the watcher: a ticker fire, a plugin-content change
(the build tool rewrites the jar, moving its hash), and the completion of
an in-flight `restartServer()` call. -/
inductive WEvent
  | tick
  | change (h : Nat)
  | finish
deriving Repr, DecidableEq

/-- One event step of the watcher loop.  A tick is dropped while the loop
is inside `restartServer()`; otherwise it rescans, and a hash mismatch
records the new hash and launches a restart.  A change only moves the
on-disk hash.  `finish` marks the in-flight restart as completed. -/
def watchStep (s : WatchState) : WEvent → WatchState
  | .change h => { s with current := h }
  | .finish => { s with restarting := false }
  | .tick =>
    if s.restarting then s
    else if s.current = s.recorded then s
    else { s with recorded := s.current, restarts := s.restarts + 1, restarting := true }

/-- Run the watcher over a list of events. -/
def watchRun (s : WatchState) (es : List WEvent) : WatchState :=
  es.foldl watchStep s

/-- The on-disk hash after a list of events, starting from hash `d`: the
argument of the last `change` event, if any. -/
def lastChangeD (d : Nat) : List WEvent → Nat
  | [] => d
  | .change h :: es => lastChangeD h es
  | _ :: es => lastChangeD d es

/-! ## Theorems -/

/-- C6: stop() called when no child process exists is a no-op that returns
success, leaving the supervisor globals unchanged, issuing no forced
termination and waiting no grace period. -/
theorem stopServer_noop_on_stopped :
    ∀ (stdin : Option PipeId) (env : StopEnv),
      stopServer ⟨none, stdin⟩ env = ⟨.ok, ⟨none, stdin⟩, 0, false⟩ := by
  intro stdin env
  rfl

/-- C10: if a child process exists and the write of the graceful stop
directive to its stdin fails, stopServer returns that error immediately —
no forced termination, no grace-period wait — and leaves `serverProcess`
and `serverStdin` unchanged, so the child is still treated as running. -/
theorem stopServer_write_failure_state_unchanged :
    ∀ (st : SupState) (env : StopEnv) (p : Pid),
      st.serverProcess = some p →
      st.serverStdin.isSome = true →
      env.writeStopFails = true →
      stopServer st env = ⟨.sendStopFailed, st, 0, false⟩ := by
  intro st env p hp hs hw
  simp [stopServer, hp, hs, hw]

/-- Witness for C10 at a concrete running state and failing write. -/
theorem stopServer_write_failure_state_unchanged_witness :
    stopServer ⟨some 1, some 2⟩ ⟨true, false, false, false⟩ =
      ⟨.sendStopFailed, ⟨some 1, some 2⟩, 0, false⟩ :=
  stopServer_write_failure_state_unchanged ⟨some 1, some 2⟩ ⟨true, false, false, false⟩ 1
    rfl rfl rfl

/-- C4: for every stop() call in which the child does not exit within the
30-second grace period (and the stop directive write did not fail),
stopServer issues exactly one forced termination, reports the ungraceful
shutdown error when the kill succeeds, and reports the kill-failure error
exactly when the forced termination itself errors. -/
theorem stopServer_timeout_exactly_one_kill :
    ∀ (st : SupState) (env : StopEnv) (p : Pid),
      st.serverProcess = some p →
      (st.serverStdin.isSome && env.writeStopFails) = false →
      env.exitsWithinGrace = false →
      (stopServer st env).kills = 1 ∧
      (stopServer st env).graceWaited = true ∧
      (env.killFails = false → (stopServer st env).result = .ungraceful) ∧
      (env.killFails = true → (stopServer st env).result = .killFailed) := by
  intro st env p hp hw hg
  cases hk : env.killFails <;> simp [stopServer, hp, hw, hg, hk]

/-- Witness for C4: a child that ignores the grace period is force-killed
exactly once and the stop reports the ungraceful-shutdown error. -/
theorem stopServer_timeout_exactly_one_kill_witness :
    (stopServer ⟨some 1, some 2⟩ ⟨false, false, false, false⟩).kills = 1 ∧
    (stopServer ⟨some 1, some 2⟩ ⟨false, false, false, false⟩).result = .ungraceful := by
  have h := stopServer_timeout_exactly_one_kill ⟨some 1, some 2⟩ ⟨false, false, false, false⟩ 1
    rfl rfl rfl
  exact ⟨h.1, h.2.2.1 rfl⟩

/-- C1 counterexample: in `restartServer` (`src/process.go`), when
stopServer returns the ungraceful-shutdown error the restart does NOT
proceed — it returns the wrapped stop error without ever calling
startServer, contradicting the claim that only a kill failure aborts a
restart. -/
theorem restartServer_ungraceful_aborts_cex :
    (restartServer ⟨some 1, some 2⟩ ⟨false, false, false, false⟩
        ⟨true, true, true, true, 7, true, true, 3⟩).stopRes = .ungraceful ∧
    (restartServer ⟨some 1, some 2⟩ ⟨false, false, false, false⟩
        ⟨true, true, true, true, 7, true, true, 3⟩).startCalled = false ∧
    (restartServer ⟨some 1, some 2⟩ ⟨false, false, false, false⟩
        ⟨true, true, true, true, 7, true, true, 3⟩).result = .stopFailed .ungraceful := by
  decide

/-- C1 amended: restart() composes stop() then start(), but neither variant
distinguishes UngracefulShutdown from KillFailed.  In `src/process.go`,
restartServer aborts and surfaces the error whenever stopServer returns any
error — the ungraceful-shutdown error as much as the kill failure — and
calls startServer exactly when stopServer returned nil; in the readline
variant, restartServerRL always proceeds to startServer, whatever
stopServer returned. -/
theorem restartServer_aborts_on_any_stop_error :
    ∀ (st : SupState) (senv : StopEnv) (env : StartEnv),
      ((restartServer st senv env).stopRes = .ok →
        (restartServer st senv env).startCalled = true) ∧
      ((restartServer st senv env).stopRes ≠ .ok →
        (restartServer st senv env).startCalled = false ∧
        (restartServer st senv env).result = .stopFailed (restartServer st senv env).stopRes) ∧
      (restartServerRL st senv env).startCalled = true := by
  intro st senv env
  refine ⟨?_, ?_, ?_⟩
  · intro h
    rcases hr : (stopServer st senv).result with _ | _ | _ | _ | _ <;>
      rcases hs : startServer (stopServer st senv).state env with ⟨r, st2⟩ <;>
      cases r <;>
      simp_all [restartServer]
  · intro h
    rcases hr : (stopServer st senv).result with _ | _ | _ | _ | _ <;>
      rcases hs : startServer (stopServer st senv).state env with ⟨r, st2⟩ <;>
      cases r <;>
      simp_all [restartServer]
  · rcases st with ⟨sp, si⟩
    cases sp with
    | none =>
      rcases hs : startServer ⟨none, si⟩ env with ⟨r, st2⟩
      cases r <;> simp [restartServerRL, hs]
    | some p =>
      rcases hs : startServer ⟨none, none⟩ env with ⟨r, st2⟩
      cases r <;> simp [restartServerRL, hs]

/-- Witness for the amended C1: a clean stop leads to startServer being
called, and an ungraceful stop leads to an abort with the wrapped error. -/
theorem restartServer_aborts_on_any_stop_error_witness :
    (restartServer ⟨none, none⟩ ⟨false, true, false, false⟩
        ⟨true, true, true, true, 7, true, true, 3⟩).startCalled = true ∧
    (restartServer ⟨some 1, some 2⟩ ⟨false, false, false, false⟩
        ⟨true, true, true, true, 7, true, true, 3⟩).startCalled = false := by
  refine ⟨(restartServer_aborts_on_any_stop_error ⟨none, none⟩ ⟨false, true, false, false⟩
      ⟨true, true, true, true, 7, true, true, 3⟩).1 (by decide), ?_⟩
  exact ((restartServer_aborts_on_any_stop_error ⟨some 1, some 2⟩ ⟨false, false, false, false⟩
      ⟨true, true, true, true, 7, true, true, 3⟩).2.1 (by decide)).1

/-- C9: whenever startServer, called with no child recorded, returns an
error, the global `serverProcess` is still nil — so a later start is not
rejected as already-running — but on the failures occurring after the stdin
pipe was created (EULA-write failure and spawn failure) the global
`serverStdin` has already been overwritten with the pipe of the
never-started command: a failed start is not atomic on the shared state. -/
theorem startServer_failure_not_atomic :
    ∀ (si : Option PipeId) (env : StartEnv),
      ((startServer ⟨none, si⟩ env).1 ≠ .ok →
        (startServer ⟨none, si⟩ env).2.serverProcess = none) ∧
      ((startServer ⟨none, si⟩ env).1 = .eulaFailed ∨
          (startServer ⟨none, si⟩ env).1 = .spawnFailed →
        (startServer ⟨none, si⟩ env).2.serverStdin = some env.newPipe) := by
  intro si env
  rcases env with ⟨jar, so, se, sp, np, eu, spw, pid⟩
  cases jar <;> cases so <;> cases se <;> cases sp <;> cases eu <;> cases spw <;>
    simp [startServer]

/-- Witness for C9: an EULA-write failure leaves `serverProcess` nil but
`serverStdin` already replaced by the new pipe. -/
theorem startServer_failure_not_atomic_witness :
    (startServer ⟨none, none⟩ ⟨true, true, true, true, 7, false, true, 3⟩).2.serverProcess =
      none ∧
    (startServer ⟨none, none⟩ ⟨true, true, true, true, 7, false, true, 3⟩).2.serverStdin =
      some 7 := by
  have h := startServer_failure_not_atomic none ⟨true, true, true, true, 7, false, true, 3⟩
  exact ⟨h.1 (by decide), h.2 (Or.inl (by decide))⟩

/-- C5: the input loop dispatches the exact case-sensitive lines !help,
!exit, !stop and !restart to their supervisor effects; any other line is
forwarded verbatim plus a trailing newline to the child's stdin when a
child is running, and when no child is running the loop reports that the
server is not running and drops the line instead of forwarding it. -/
theorem routeCommand_dispatch :
    ∀ (line : String) (sp : Option Pid) (si : Option PipeId) (p : Pid) (q : PipeId),
      routeCommand "!help" sp si = .helpText ∧
      routeCommand "!exit" sp si = .exitGolem ∧
      routeCommand "!stop" sp si = .stopOnly ∧
      routeCommand "!restart" sp si = .restartCmd ∧
      (line ∉ golemDirectives → line ≠ "" →
        routeCommand line (some p) (some q) = .forward (line ++ "\n")) ∧
      (line ∉ golemDirectives → routeCommand line none si = .notRunning) := by
  intro line sp si p q
  refine ⟨rfl, rfl, rfl, rfl, ?_, ?_⟩
  · intro hmem hne
    simp only [golemDirectives, List.mem_cons, List.not_mem_nil, or_false] at hmem
    push_neg at hmem
    simp [routeCommand, hmem.1, hmem.2.1, hmem.2.2.1, hmem.2.2.2]
  · intro hmem
    simp only [golemDirectives, List.mem_cons, List.not_mem_nil, or_false] at hmem
    push_neg at hmem
    simp [routeCommand, hmem.1, hmem.2.1, hmem.2.2.1, hmem.2.2.2]

/-- Witness for C5: a passthrough line is forwarded with a trailing newline
while a child runs, and reported as not-running (dropped) otherwise. -/
theorem routeCommand_dispatch_witness :
    routeCommand "list" (some 1) (some 2) = .forward "list\n" ∧
    routeCommand "list" none (some 2) = .notRunning := by
  have h := routeCommand_dispatch "list" (some 1) (some 2) 1 2
  exact ⟨h.2.2.2.2.1 (by decide) (by decide), h.2.2.2.2.2 (by decide)⟩

/-- C8: every call to printWithPrompt acquires the console lock as its
first action and releases it as its last; when a prompt is visible on
entry, the carriage-return-and-erase sequence is emitted before the text,
the prompt is redrawn after the text, and the prompt is marked visible on
exit. -/
theorem printWithPrompt_lock_discipline :
    ∀ (pa : Bool) (msg : String),
      (printWithPrompt pa msg).1 = true ∧
      (printWithPrompt pa msg).2.head? = some .lockEv ∧
      (printWithPrompt pa msg).2.getLast? = some .unlockEv ∧
      (pa = true →
        (printWithPrompt pa msg).2 =
          [.lockEv, .eraseEv, .lineEv msg, .promptEv, .unlockEv]) ∧
      (pa = false →
        (printWithPrompt pa msg).2 = [.lockEv, .lineEv msg, .promptEv, .unlockEv]) := by
  intro pa msg
  cases pa <;> simp [printWithPrompt]

/-- Witness for C8 at concrete prompt states: the full event sequences,
erase-before-text when the prompt was visible. -/
theorem printWithPrompt_lock_discipline_witness :
    (printWithPrompt true "x").2 =
      [.lockEv, .eraseEv, .lineEv "x", .promptEv, .unlockEv] ∧
    (printWithPrompt false "x").2 = [.lockEv, .lineEv "x", .promptEv, .unlockEv] :=
  ⟨(printWithPrompt_lock_discipline true "x").2.2.2.1 rfl,
   (printWithPrompt_lock_discipline false "x").2.2.2.2 rfl⟩

/-- Length of the concrete over-long line. -/
theorem overlongLine_length : overlongLine.length = maxLineCapacity + 1 := by
  simp [overlongLine, String.length]

/-- C7 counterexample: a line one byte over the 256 KiB cap is not
truncated and the relay does not continue — the loop ends with the
too-long scanner error, and a subsequent line of the stream is never
relayed. -/
theorem relayLines_overlong_cex :
    relayLines ["a", overlongLine, "b"] = (["[Server] a"], .tooLong) ∧
    "[Server] b" ∉ (relayLines ["a", overlongLine, "b"]).1 := by
  have h1 : overlongLine.length > maxLineCapacity := by
    rw [overlongLine_length]; omega
  have h2 : ¬ ("a" : String).length > maxLineCapacity := by decide
  constructor
  · simp [relayLines, h1, h2]
  · simp [relayLines, h1, h2]

/-- C7 amended: an over-long child output line does not crash the program —
the relay goroutine logs the scanner error and returns — but it is not
truncated and the relay task does not survive it: the first line exceeding
the 256 KiB cap ends that relay task with the too-long error, all lines
before it having been relayed and no line after it being relayed. -/
theorem relayLines_stop_at_overlong :
    ∀ (pre : List String) (l : String) (post : List String),
      (∀ x ∈ pre, x.length ≤ maxLineCapacity) →
      l.length > maxLineCapacity →
      relayLines (pre ++ l :: post) =
        (pre.map (fun s => "[Server] " ++ s), .tooLong) := by
  intro pre l post
  induction pre with
  | nil =>
    intro _ hl
    simp [relayLines, hl]
  | cons a as ih =>
    intro hpre hl
    have ha : ¬ a.length > maxLineCapacity := by
      have := hpre a (List.mem_cons_self a as)
      omega
    have hrec := ih (fun x hx => hpre x (List.mem_cons_of_mem a hx)) hl
    simp [relayLines, ha, hrec]

/-- Witness for the amended C7 at a concrete stream: the line before the
over-long one is relayed, nothing after it is. -/
theorem relayLines_stop_at_overlong_witness :
    relayLines (["a"] ++ overlongLine :: ["b"]) = (["[Server] a"], .tooLong) :=
  relayLines_stop_at_overlong ["a"] overlongLine ["b"] (by decide)
    (by rw [overlongLine_length]; omega)

/-- C2 counterexample: starting from a state with a live child, running one
atomic step of the operator's stopServer and then one step of the
watcher-restart's stopServer leaves BOTH threads inside the critical phase
of the operation at once — no lock serializes them. -/
theorem supervisor_no_lock_cex :
    inCriticalPhase (schedRun ⟨⟨some 1, some 2⟩, .atGuard, .atGuard⟩ [true, false]).pcA =
      true ∧
    inCriticalPhase (schedRun ⟨⟨some 1, some 2⟩, .atGuard, .atGuard⟩ [true, false]).pcB =
      true := by
  decide

/-- C2 amended: the supervisor operations are NOT mutually exclusive — the
code takes no lock in startServer, stopServer or restartServer (the only
mutexes guard console output and the watcher's hash map) — and from every
state with a live child, scheduling each of two concurrent stop-phase
callers through its guard step puts both inside their critical phases
concurrently. -/
theorem supervisor_ops_not_serialized :
    ∀ (sh : SupState) (p : Pid),
      sh.serverProcess = some p →
      inCriticalPhase (schedRun ⟨sh, .atGuard, .atGuard⟩ [true, false]).pcA = true ∧
      inCriticalPhase (schedRun ⟨sh, .atGuard, .atGuard⟩ [true, false]).pcB = true := by
  intro sh p hp
  simp [schedRun, schedStep, stopThreadStep, hp, inCriticalPhase]

/-- Witness for the amended C2 at a concrete shared state. -/
theorem supervisor_ops_not_serialized_witness :
    inCriticalPhase (schedRun ⟨⟨some 3, none⟩, .atGuard, .atGuard⟩ [true, false]).pcA =
      true :=
  (supervisor_ops_not_serialized ⟨some 3, none⟩ 3 rfl).1

/-- Splitting a watcher run over an append of event lists. -/
theorem watchRun_append (s : WatchState) (es fs : List WEvent) :
    watchRun s (es ++ fs) = watchRun (watchRun s es) fs := by
  simp [watchRun, List.foldl_append]

/-- While the loop is inside restartServer, events only move the on-disk
hash: ticks are dropped and changes update `current`, so the run ends in
the same state with `current` set to the last change. -/
theorem watchRun_inflight :
    ∀ (es : List WEvent) (s : WatchState),
      s.restarting = true →
      (∀ e ∈ es, e ≠ WEvent.finish) →
      watchRun s es = { s with current := lastChangeD s.current es } := by
  intro es
  induction es with
  | nil => intro s _ _; simp [watchRun, lastChangeD]
  | cons e es ih =>
    intro s hr hn
    cases e with
    | tick =>
      have hstep : watchStep s .tick = s := by simp [watchStep, hr]
      have : watchRun s (.tick :: es) = watchRun s es := by
        simp [watchRun, hstep]
      rw [this, ih s hr (fun x hx => hn x (List.mem_cons_of_mem _ hx))]
      rfl
    | change h =>
      have : watchRun s (.change h :: es) = watchRun { s with current := h } es := by
        simp [watchRun, watchStep]
      rw [this, ih { s with current := h } hr (fun x hx => hn x (List.mem_cons_of_mem _ hx))]
      rfl
    | finish =>
      exact absurd rfl (hn .finish (List.mem_cons_self _ _))

/-- The on-disk hash is unmoved by a run of dropped ticks. -/
theorem lastChangeD_replicate_tick :
    ∀ (q : Nat) (d : Nat), lastChangeD d (List.replicate q .tick) = d := by
  intro q
  induction q with
  | zero => intro d; rfl
  | succ n ih => intro d; simp [List.replicate, lastChangeD, ih]

/-- C3: restart requests coalesce.  A first detected change puts one
restart in flight; any number N of further plugin-content changes arriving
while that restart executes cause no restart during the flight, and — once
the restart completes and the next tick rescans — exactly one additional
restart executes (total two), not N, however many dropped ticks follow. -/
theorem watcher_restart_coalescing :
    ∀ (r c0 : Nat) (es : List WEvent) (q : Nat),
      c0 ≠ r →
      (∀ e ∈ es, e ≠ WEvent.finish) →
      lastChangeD c0 es ≠ c0 →
      (watchRun ⟨r, c0, false, 0⟩ ([.tick] ++ es)).restarts = 1 ∧
      (watchRun ⟨r, c0, false, 0⟩
          ([.tick] ++ es ++ [.finish, .tick] ++ List.replicate q .tick)).restarts = 2 := by
  intro r c0 es q hne hnf hlast
  have h1 : watchRun ⟨r, c0, false, 0⟩ [.tick] = ⟨c0, c0, true, 1⟩ := by
    simp [watchRun, watchStep, hne]
  have h2 : watchRun ⟨r, c0, false, 0⟩ ([.tick] ++ es) =
      ⟨c0, lastChangeD c0 es, true, 1⟩ := by
    rw [watchRun_append, h1, watchRun_inflight es ⟨c0, c0, true, 1⟩ rfl hnf]
  constructor
  · rw [h2]
  · have h3 : watchRun ⟨r, c0, false, 0⟩ ([.tick] ++ es ++ [.finish, .tick]) =
        ⟨lastChangeD c0 es, lastChangeD c0 es, true, 2⟩ := by
      rw [watchRun_append, h2]
      simp [watchRun, watchStep, hlast]
    have hnf2 : ∀ e ∈ List.replicate q WEvent.tick, e ≠ WEvent.finish := by
      intro e he
      rw [List.eq_of_mem_replicate he]
      simp
    rw [watchRun_append, h3,
      watchRun_inflight (List.replicate q .tick) ⟨lastChangeD c0 es, lastChangeD c0 es, true, 2⟩
        rfl hnf2]

/-- Witness for C3: three plugin changes during one in-flight restart yield
exactly one additional restart (two in total), not three. -/
theorem watcher_restart_coalescing_witness :
    (watchRun ⟨0, 1, false, 0⟩
        ([.tick] ++ [.change 2, .change 3, .change 4] ++ [.finish, .tick] ++
          List.replicate 2 .tick)).restarts = 2 :=
  (watcher_restart_coalescing 0 1 [.change 2, .change 3, .change 4] 2 (by decide)
    (by decide) (by decide)).2

end Golem
